import Mathlib

/-!
Verification of the housing-price model pipeline
(`src/data_preprocessing.py`, `src/train_model.py`, `src/predict.py`),
shallow-embedded over `ℚ`.

Numeric values are embedded as rationals.  Exceptions raised by the Python
code (`KeyError`, `ValueError`) are embedded as `Except` errors.  The z-score
comparison `|x - mean| / std < t` of the outlier filter is embedded in the
squared form `(x - mean)^2 < t^2 * var`, which is equivalent for `t ≥ 0`
whenever the variance is positive (see `zscore_sq_iff_of_pos` below) and
reproduces the NaN/degenerate behaviour of the source (a column with zero
variance drops every row) in the degenerate cases.
-/

deriving instance DecidableEq for Except

namespace Housing

/-! ### Predictor data model (`src/predict.py`) -/

/-- Errors surfaced by the prediction path: `KeyError` from the dict lookup
comprehension in `ModelPredictor.predict`, `ValueError` from the shape check
performed by the fitted scaler and model. -/
inductive PredError where
  | keyError (name : String)
  | valueError
deriving DecidableEq

/-- The loaded `StandardScaler` artifact: per-feature `mean_` and `scale_`
vectors as stored in `scaler.pkl`. -/
structure StandardScalerArt where
  mean : List ℚ
  scale : List ℚ
deriving DecidableEq

/-- `n_features_in_` of the fitted scaler (the length of its `mean_`). -/
def StandardScalerArt.nFeaturesIn (s : StandardScalerArt) : Nat := s.mean.length

/-- Elementwise standardisation of one row: `(x - mean) / scale`. -/
def scaleRow (mean scale row : List ℚ) : List ℚ :=
  (row.zip (mean.zip scale)).map (fun q => (q.1 - q.2.1) / q.2.2)

/-- `StandardScaler.transform` on a single row: sklearn validates that the
input has exactly `n_features_in_` columns and raises `ValueError` otherwise,
then standardises elementwise. -/
def StandardScalerArt.transform (s : StandardScalerArt) (row : List ℚ) :
    Except PredError (List ℚ) :=
  if row.length = s.nFeaturesIn then .ok (scaleRow s.mean s.scale row)
  else .error .valueError

/-- The loaded `LinearRegression` artifact: `coef_` and `intercept_`. -/
structure LinearRegressionArt where
  coef : List ℚ
  intercept : ℚ
deriving DecidableEq

/-- Dot product of two equally long lists. -/
def dot (a b : List ℚ) : ℚ := ((a.zip b).map (fun q => q.1 * q.2)).sum

/-- `LinearRegression.predict` on a single row: `x @ coef_ + intercept_`. -/
def LinearRegressionArt.predictRow (m : LinearRegressionArt) (row : List ℚ) : ℚ :=
  dot row m.coef + m.intercept

/-- One split's entry of `metrics.json` as written by `ModelTrainer.evaluate`. -/
structure SplitMetrics where
  mse : ℚ
  rmse : ℚ
  mae : ℚ
  r2 : ℚ
deriving DecidableEq

/-- The `metrics.json` artifact: train and test metrics. -/
structure Metrics where
  train : SplitMetrics
  test : SplitMetrics
deriving DecidableEq

/-- The contents of a model directory: the four artifacts `save_model` writes
(`linear_regression_model.pkl`, `scaler.pkl`, `features.json`,
`metrics.json`). -/
structure Store where
  model : LinearRegressionArt
  scaler : StandardScalerArt
  features : List String
  metrics : Metrics
deriving DecidableEq

/-- The in-memory state of a `ModelPredictor` after `load_model`:
`self.model`, `self.scaler` and `self.feature_names`.  Note that `load_model`
does not read `metrics.json`. -/
structure ModelPredictor where
  model : LinearRegressionArt
  scaler : StandardScalerArt
  feature_names : List String
deriving DecidableEq

/-- `ModelPredictor.load_model`: loads the model, the scaler and the feature
names from the model directory — and nothing else. -/
def load_model (st : Store) : ModelPredictor :=
  { model := st.model, scaler := st.scaler, feature_names := st.features }

/-- A dict-shaped feature record: association list from feature name to value. -/
abbrev FeatureRecord := List (String × ℚ)

/-- The comprehension `[features[f] for f in self.feature_names]`: values in
schema order; raises `KeyError f` at the first schema name absent from the
record. -/
def buildRow (names : List String) (r : FeatureRecord) : Except PredError (List ℚ) :=
  match names with
  | [] => .ok []
  | f :: rest =>
    match r.lookup f with
    | none => .error (.keyError f)
    | some v =>
      match buildRow rest r with
      | .error e => .error e
      | .ok vs => .ok (v :: vs)

/-- Total variant of `buildRow` (defaulting absent names to `0`); coincides
with `buildRow` when every schema name is present. -/
def buildRowD (names : List String) (r : FeatureRecord) : List ℚ :=
  names.map (fun f => (r.lookup f).getD 0)

/-- `ModelPredictor.predict` on a dict input: reorder the record by
`feature_names`, scale, apply the model, return the single prediction. -/
def ModelPredictor.predict (p : ModelPredictor) (r : FeatureRecord) :
    Except PredError ℚ :=
  match buildRow p.feature_names r with
  | .error e => .error e
  | .ok row =>
    match p.scaler.transform row with
    | .error e => .error e
    | .ok scaled => .ok (p.model.predictRow scaled)

/-- `ModelPredictor.predict` on a list (non-dict) input: the values are used
positionally with no schema validation; the only check is the scaler's
feature-count check. -/
def ModelPredictor.predictList (p : ModelPredictor) (xs : List ℚ) :
    Except PredError ℚ :=
  match p.scaler.transform xs with
  | .error e => .error e
  | .ok scaled => .ok (p.model.predictRow scaled)

/-- Column selection `df[self.feature_names].values` of `predict_batch`,
row by row. -/
def buildRows (names : List String) (records : List FeatureRecord) :
    Except PredError (List (List ℚ)) :=
  match records with
  | [] => .ok []
  | r :: rest =>
    match buildRow names r with
    | .error e => .error e
    | .ok row =>
      match buildRows names rest with
      | .error e => .error e
      | .ok rows => .ok (row :: rows)

/-- `scaler.transform` applied to a whole feature matrix (sklearn transforms
each row independently after the shape check). -/
def transformRows (s : StandardScalerArt) (rows : List (List ℚ)) :
    Except PredError (List (List ℚ)) :=
  match rows with
  | [] => .ok []
  | row :: rest =>
    match s.transform row with
    | .error e => .error e
    | .ok scaled =>
      match transformRows s rest with
      | .error e => .error e
      | .ok scaledRest => .ok (scaled :: scaledRest)

/-- `ModelPredictor.predict_batch`: build the schema-ordered feature matrix,
scale it, predict every row. -/
def ModelPredictor.predict_batch (p : ModelPredictor) (records : List FeatureRecord) :
    Except PredError (List ℚ) :=
  match buildRows p.feature_names records with
  | .error e => .error e
  | .ok rows =>
    match transformRows p.scaler rows with
    | .error e => .error e
    | .ok scaled => .ok (scaled.map p.model.predictRow)

/-- The dictionary returned by `predict_with_confidence`. -/
structure ConfResult where
  prediction : ℚ
  confidence : ℚ
  model_rmse : ℚ
deriving DecidableEq

/-- `ModelPredictor.predict_with_confidence`: predicts, then opens
`metrics.json` in the model directory **at call time** (`storeNow` is the
directory contents when the call happens, not at `load_model` time) and
returns the stored test `r2` and `rmse` alongside the prediction. -/
def ModelPredictor.predict_with_confidence (p : ModelPredictor) (storeNow : Store)
    (r : FeatureRecord) : Except PredError ConfResult :=
  match p.predict r with
  | .error e => .error e
  | .ok price =>
      .ok { prediction := price
            confidence := storeNow.metrics.test.r2
            model_rmse := storeNow.metrics.test.rmse }

/-- The per-record prediction value under a well-formed bundle: reorder by
schema, scale, apply the model. -/
def priceD (p : ModelPredictor) (r : FeatureRecord) : ℚ :=
  p.model.predictRow (scaleRow p.scaler.mean p.scaler.scale (buildRowD p.feature_names r))

/-! ### Preprocessor (`src/data_preprocessing.py`)

A `DataFrame` is embedded as a list of rows of rationals; its columns are the
CSV columns in order.  In the training pipeline the columns are the five
schema features followed by the target column `price` (the layout written by
`data/generate_data.py`), so the schema columns are the indices
`0, …, nFeatures - 1` and `price` is column `nFeatures`. -/

/-- The values of column `j`. -/
def colVals (df : List (List ℚ)) (j : Nat) : List ℚ := df.map (fun row => row.getD j 0)

/-- Arithmetic mean (`Series.mean`). -/
def qmean (xs : List ℚ) : ℚ := xs.sum / xs.length

/-- Sample variance with `ddof = 1`, the square of `Series.std`. -/
def sampVar (xs : List ℚ) : ℚ :=
  (xs.map (fun x => (x - qmean xs) ^ 2)).sum / ((xs.length : ℚ) - 1)

/-- Row-retention test of `remove_outliers`: `z_scores < threshold` with
`z = |x - mean| / std`, embedded in the squared form
`(x - mean)^2 < t^2 * var`.  For `t ≥ 0` and positive variance this is
exactly `|z| < t` (`zscore_sq_iff_of_pos`); for zero variance both the
source (whose `z` is NaN) and this form retain no row. -/
def zKeep (xs : List ℚ) (x t : ℚ) : Bool :=
  decide ((x - qmean xs) ^ 2 < t ^ 2 * sampVar xs)

/-- One iteration of the `for col in columns` loop of `remove_outliers`:
mean and std are computed over the **current** (already filtered) frame. -/
def filterCol (df : List (List ℚ)) (j : Nat) (t : ℚ) : List (List ℚ) :=
  df.filter (fun row => zKeep (colVals df j) (row.getD j 0) t)

/-- `DataProcessor.remove_outliers` over an explicit column list: cumulative
per-column z-score filtering in the order of `cols`. -/
def remove_outliers (df : List (List ℚ)) (cols : List Nat) (t : ℚ) : List (List ℚ) :=
  cols.foldl (fun d j => filterCol d j t) df

/-- `remove_outliers` with `columns=None`: the column list defaults to every
numeric column of the frame — all `ncols` columns, in dataframe order,
**including the target `price` column**. -/
def remove_outliers_default (df : List (List ℚ)) (ncols : Nat) (t : ℚ) : List (List ℚ) :=
  remove_outliers df (List.range ncols) t

/-- Modelled from the claim wording (C4): a reference run that processes only
the schema (feature) columns, in schema order, dropping a row only when its
z-score magnitude strictly exceeds the threshold (so `|z| = t` survives). -/
def removeOutliersClaim (df : List (List ℚ)) (featureCols : List Nat) (t : ℚ) :
    List (List ℚ) :=
  featureCols.foldl
    (fun d j => d.filter
      (fun row => decide ((row.getD j 0 - qmean (colVals d j)) ^ 2 ≤ t ^ 2 * sampVar (colVals d j))))
    df

/-- Reference formulation of what the code does (for the amended C4), written
as structural recursion over the processed columns: stage `k` recomputes mean
and sample variance over the rows surviving stages `< k` and keeps a row iff
its squared deviation is strictly below `t^2` times the variance. -/
def removeOutliersRef (df : List (List ℚ)) (cols : List Nat) (t : ℚ) : List (List ℚ) :=
  match cols with
  | [] => df
  | j :: rest =>
      removeOutliersRef
        (df.filter (fun row =>
          decide ((row.getD j 0 - qmean (colVals df j)) ^ 2 < t ^ 2 * sampVar (colVals df j))))
        rest t

/-- Population variance (`ddof = 0`), the square of `StandardScaler.scale_`
before zero-handling. -/
def popVar (xs : List ℚ) : ℚ :=
  (xs.map (fun x => (x - qmean xs) ^ 2)).sum / (xs.length : ℚ)

/-- Per-column means of a feature matrix with `p` columns. -/
def colMeans (X : List (List ℚ)) (p : Nat) : List ℚ :=
  (List.range p).map (fun j => qmean (colVals X j))

/-- Per-column population variances of a feature matrix with `p` columns. -/
def colPopVars (X : List (List ℚ)) (p : Nat) : List ℚ :=
  (List.range p).map (fun j => popVar (colVals X j))

/-- `StandardScaler.fit` on the training matrix: per-feature mean and scale.
The scale is the square root of the population variance with zeros replaced
by `1`; since an exact square root does not exist in `ℚ`, the embedding is
parametric in the square-root function `sqrtFn`, which every claim proved
here is independent of. -/
def fitScalerParams (X : List (List ℚ)) (p : Nat) (sqrtFn : ℚ → ℚ) : List ℚ × List ℚ :=
  (colMeans X p, (colPopVars X p).map (fun v => if v = 0 then 1 else sqrtFn v))

/-- `DataProcessor.scale_features`: fit the scaler on `X_train` only, then
transform both `X_train` and `X_test` with the fitted parameters.  Returns
(fitted ScalerParams, scaled train, scaled test). -/
def scale_features (sqrtFn : ℚ → ℚ) (p : Nat) (xtr xte : List (List ℚ)) :
    (List ℚ × List ℚ) × List (List ℚ) × List (List ℚ) :=
  let prm := fitScalerParams xtr p sqrtFn
  (prm, xtr.map (scaleRow prm.1 prm.2), xte.map (scaleRow prm.1 prm.2))

/-- A linear congruential step driving the modelled shuffle. -/
def lcg (s : Nat) : Nat := (1103515245 * s + 12345) % 2147483648

/-- Fuel-indexed selection shuffle: repeatedly pick the element at the index
given by the current generator state and advance the generator. -/
def shuffleGo {α : Type} : Nat → Nat → List α → List α
  | 0, _, l => l
  | fuel + 1, s, l =>
    match l.get? (s % l.length) with
    | none => l
    | some a => a :: shuffleGo fuel (lcg s) (l.eraseIdx (s % l.length))

/-- Deterministic seeded permutation of a list. -/
def seededShuffle {α : Type} (seed : Nat) (l : List α) : List α :=
  shuffleGo l.length (lcg seed) l

/-- Modelled from the spec: `sklearn.model_selection.train_test_split` is
library code not in this repository; per the spec it "partitions rows into
disjoint train/test sets using a seeded pseudo-random shuffle; same seed ⇒
same partition".  When `random_state` is `none` the shuffle falls back to the
ambient global generator state (`globalSeed`); a supplied `random_state`
makes the result independent of that ambient state.  `n_test` is
`ceil(test_size * n)` as in sklearn.  Returns
`((X_train, y_train), (X_test, y_test))`. -/
def train_test_split (X : List (List ℚ)) (y : List ℚ) (testSize : ℚ)
    (randomState : Option Nat) (globalSeed : Nat) :
    (List (List ℚ) × List ℚ) × (List (List ℚ) × List ℚ) :=
  let seed := randomState.getD globalSeed
  let n := X.length
  let nTest := (⌈testSize * (n : ℚ)⌉).toNat
  let idx := seededShuffle seed (List.range n)
  let testIdx := idx.take nTest
  let trainIdx := idx.drop nTest
  ((trainIdx.map (fun i => X.getD i []), trainIdx.map (fun i => y.getD i 0)),
   (testIdx.map (fun i => X.getD i []), testIdx.map (fun i => y.getD i 0)))

/-- Remove column `j` from a row (`df.drop('price', axis=1)` row-wise). -/
def dropCol (j : Nat) (row : List ℚ) : List ℚ := row.take j ++ row.drop (j + 1)

/-- `DataProcessor.prepare_train_test_split`: separate features (`X`) and the
target column (`y`), then call `train_test_split` passing the `random_state`
parameter (an integer, default 42 in the source) explicitly. -/
def prepare_train_test_split (df : List (List ℚ)) (priceCol : Nat) (testSize : ℚ)
    (randomState : Nat) (globalSeed : Nat) :
    (List (List ℚ) × List ℚ) × (List (List ℚ) × List ℚ) :=
  train_test_split (df.map (dropCol priceCol)) (df.map (fun row => row.getD priceCol 0))
    testSize (some randomState) globalSeed

/-! ### Trainer (`src/train_model.py`)

`ModelTrainer.train` constructs a `LinearRegression` and calls `fit`.
sklearn's input validation raises `ValueError` when the sample count is zero
or `X` and `y` have inconsistent lengths; otherwise `fit` centres the data
and solves the least-squares problem with `scipy.linalg.lstsq`, which never
fails — in particular it silently returns the minimum-norm solution when
there are more features than rows.  The solver is embedded as a rational
normal-equations Gaussian elimination with free variables set to `0`; it
differs from scipy only in the tie-break among least-squares minimisers,
which no claim verified here depends on. -/

/-- Error raised by sklearn's input validation. -/
inductive FitError where
  | valueError
deriving DecidableEq

/-- Find the first row with a nonzero entry in column `j`; return it together
with the remaining rows. -/
def pivotSplit (j : Nat) : List (List ℚ) → Option (List ℚ × List (List ℚ))
  | [] => none
  | r :: rs =>
    if r.getD j 0 ≠ 0 then some (r, rs)
    else
      match pivotSplit j rs with
      | none => none
      | some (pr, rest) => some (pr, r :: rest)

/-- Eliminate column `j` from row `r` using pivot row `pr`. -/
def elimRow (pr : List ℚ) (j : Nat) (r : List ℚ) : List ℚ :=
  let factor := r.getD j 0 / pr.getD j 0
  (r.zip pr).map (fun q => q.1 - factor * q.2)

/-- Forward elimination over the given column order, collecting the pivot
rows with their pivot columns. -/
def gaussGo : List Nat → List (List ℚ) → List (List ℚ × Nat)
  | [], _ => []
  | j :: js, rows =>
    match pivotSplit j rows with
    | none => gaussGo js rows
    | some (pr, rest) => (pr, j) :: gaussGo js (rest.map (elimRow pr j))

/-- Back substitution: starting from the all-zero assignment (free variables
stay `0`), solve the pivot equations in reverse elimination order.  Each
augmented row has `p` coefficients followed by the right-hand side. -/
def backSub (p : Nat) (pivots : List (List ℚ × Nat)) : List ℚ :=
  pivots.reverse.foldl
    (fun x prj =>
      let rhs := prj.1.getD p 0
      let s := dot (prj.1.take p) x
      x.set prj.2 ((rhs - s) / prj.1.getD prj.2 0))
    (List.replicate p 0)

/-- Solve a `p × p` linear system given as augmented rows; returns a solution
whenever one exists, with non-pivot variables set to `0`. -/
def gaussSolve (p : Nat) (rows : List (List ℚ)) : List ℚ :=
  backSub p (gaussGo (List.range p) rows)

/-- The Gram matrix `Xᵀ X` of a matrix with `p` columns. -/
def xtx (X : List (List ℚ)) (p : Nat) : List (List ℚ) :=
  (List.range p).map (fun i => (List.range p).map (fun j => dot (colVals X i) (colVals X j)))

/-- The vector `Xᵀ y`. -/
def xty (X : List (List ℚ)) (y : List ℚ) (p : Nat) : List ℚ :=
  (List.range p).map (fun i => dot (colVals X i) y)

/-- `LinearRegression.fit` (with `fit_intercept=True`): centre `X` and `y`,
solve the least-squares problem on the centred data, recover the intercept
from the means.  Always returns coefficients — it has no row-count-versus-
feature-count guard. -/
def fitLinearRegression (X : List (List ℚ)) (y : List ℚ) : List ℚ × ℚ :=
  let p := (X.headD []).length
  let mu := colMeans X p
  let ybar := qmean y
  let Xc := X.map (fun row => (row.zip mu).map (fun q => q.1 - q.2))
  let yc := y.map (fun v => v - ybar)
  let aug := ((xtx Xc p).zip (xty Xc yc p)).map (fun rb => rb.1 ++ [rb.2])
  let coef := gaussSolve p aug
  (coef, ybar - dot coef mu)

/-- `ModelTrainer.train`: sklearn's validation rejects an empty sample or
inconsistent `X`/`y` lengths with `ValueError`; otherwise the fit succeeds
and returns `(coef_, intercept_)`. -/
def ModelTrainer.train (X : List (List ℚ)) (y : List ℚ) :
    Except FitError (List ℚ × ℚ) :=
  if X.length = 0 ∨ X.length ≠ y.length then .error .valueError
  else .ok (fitLinearRegression X y)

/-! ### Artifact store (`ModelTrainer.save_model`)

The file system is embedded as a map from paths to artifact contents, a path
being the pair (directory, file name) built by `os.path.join`.  `save_model`
opens each of the four final paths directly (no temporary name, no rename,
no lock file) and writes them in source order: model, scaler, metrics,
features.  The embedding returns the list of file-system states observable
during the call: the initial state and the state after each write. -/

/-- One artifact file's contents. -/
inductive Artifact where
  | modelA (m : LinearRegressionArt)
  | scalerA (s : StandardScalerArt)
  | metricsA (m : Metrics)
  | featuresA (names : List String)
deriving DecidableEq

/-- File name of the pickled model. -/
def modelFile : String := "linear_regression_model.pkl"

/-- File name of the pickled scaler. -/
def scalerFile : String := "scaler.pkl"

/-- File name of the metrics JSON. -/
def metricsFile : String := "metrics.json"

/-- File name of the feature-names JSON. -/
def featuresFile : String := "features.json"

/-- A file-system state: contents by (directory, file name). -/
abbrev ArtifactFS := String × String → Option Artifact

/-- Writing a file: the state after `open(path, 'w')` + `dump` + close. -/
def fsWrite (fs : ArtifactFS) (path : String × String) (a : Artifact) : ArtifactFS :=
  fun q => if q = path then some a else fs q

/-- `ModelTrainer.save_model`: the four direct in-place writes, in source
order; result is the trace of observable file-system states. -/
def save_model (dir : String) (m : LinearRegressionArt) (s : StandardScalerArt)
    (me : Metrics) (fe : List String) (fs0 : ArtifactFS) : List ArtifactFS :=
  let s1 := fsWrite fs0 (dir, modelFile) (.modelA m)
  let s2 := fsWrite s1 (dir, scalerFile) (.scalerA s)
  let s3 := fsWrite s2 (dir, metricsFile) (.metricsA me)
  let s4 := fsWrite s3 (dir, featuresFile) (.featuresA fe)
  [fs0, s1, s2, s3, s4]

/-- What a concurrent reader of the bundle at `dir` observes: the contents of
the four artifact paths. -/
def bundleView (fs : ArtifactFS) (dir : String) :
    Option Artifact × Option Artifact × Option Artifact × Option Artifact :=
  (fs (dir, modelFile), fs (dir, scalerFile), fs (dir, metricsFile), fs (dir, featuresFile))

/-! ### Concrete fixtures used by counterexamples and witnesses -/

/-- A two-feature predictor with identity scaling and unit coefficients. -/
def pEx : ModelPredictor :=
  { model := { coef := [1, 1], intercept := 0 }
    scaler := { mean := [0, 0], scale := [1, 1] }
    feature_names := ["a", "b"] }

/-- A one-feature artifact bundle whose stored test metrics are
`rmse = 100`, `r2 = 9/10`. -/
def storeA : Store :=
  { model := { coef := [1], intercept := 0 }
    scaler := { mean := [0], scale := [1] }
    features := ["a"]
    metrics := { train := ⟨0, 0, 0, 0⟩, test := ⟨0, 100, 0, 9/10⟩ } }

/-- The same bundle with the stored test `r2` replaced by `8/10`. -/
def storeB : Store :=
  { storeA with metrics := { train := ⟨0, 0, 0, 0⟩, test := ⟨0, 100, 0, 8/10⟩ } }

/-- A 2-column frame (one feature column, then the `price` column) whose last
row is an outlier only in `price`. -/
def df4 : List (List ℚ) := [[0, 0], [1, 0], [0, 0], [1, 10]]

/-- An initial file-system state holding a complete prior bundle at
`"models"`. -/
def oldStoreFS : ArtifactFS :=
  fsWrite
    (fsWrite
      (fsWrite
        (fsWrite (fun _ => none) ("models", modelFile)
          (.modelA { coef := [0], intercept := 0 }))
        ("models", scalerFile) (.scalerA { mean := [0], scale := [1] }))
      ("models", metricsFile) (.metricsA { train := ⟨0, 0, 0, 0⟩, test := ⟨0, 0, 0, 0⟩ }))
    ("models", featuresFile) (.featuresA ["a"])

/-- The new model written by the C9 counterexample's `save_model` call. -/
def newModelArt : LinearRegressionArt := { coef := [1], intercept := 1 }

/-- The new scaler written by the C9 counterexample's `save_model` call. -/
def newScalerArt : StandardScalerArt := { mean := [1], scale := [2] }

/-- The new metrics written by the C9 counterexample's `save_model` call. -/
def newMetricsArt : Metrics := { train := ⟨1, 1, 1, 1⟩, test := ⟨1, 1, 1, 1⟩ }

/-- The state trace of the C9 counterexample's `save_model` call. -/
def saveTraceEx : List ArtifactFS :=
  save_model "models" newModelArt newScalerArt newMetricsArt ["a"] oldStoreFS

/-- Batch of two valid records for `pEx`, with permuted key orders. -/
def recsEx : List FeatureRecord := [[("a", 1), ("b", 2)], [("b", 3), ("a", 4)]]

/-! ### Helper lemmas -/

theorem buildRow_eq_of_lookup_eq (names : List String) (r r' : FeatureRecord)
    (h : ∀ f ∈ names, List.lookup f r' = List.lookup f r) :
    buildRow names r' = buildRow names r := by
  induction names with
  | nil => rfl
  | cons f rest ih =>
    simp only [buildRow]
    rw [h f (by simp)]
    cases hr : List.lookup f r with
    | none => rfl
    | some v => rw [ih (fun g hg => h g (by simp [hg]))]

theorem buildRow_ok_of_lookups (names : List String) (r : FeatureRecord)
    (h : ∀ f ∈ names, (List.lookup f r).isSome) :
    buildRow names r = .ok (buildRowD names r) := by
  induction names with
  | nil => rfl
  | cons f rest ih =>
    obtain ⟨v, hv⟩ := Option.isSome_iff_exists.mp (h f (by simp))
    have hrest := ih (fun g hg => h g (by simp [hg]))
    simp [buildRow, buildRowD, hv, hrest]

theorem buildRow_missing (names : List String) (r : FeatureRecord)
    (h : ∃ f ∈ names, List.lookup f r = none) :
    ∃ f, f ∈ names ∧ List.lookup f r = none ∧ buildRow names r = .error (.keyError f) := by
  induction names with
  | nil => simp at h
  | cons g rest ih =>
    cases hg : List.lookup g r with
    | none => exact ⟨g, by simp, hg, by simp [buildRow, hg]⟩
    | some v =>
      obtain ⟨f, hf, hfn⟩ := h
      have hfr : f ∈ rest := by
        rcases List.mem_cons.mp hf with h1 | h1
        · rw [h1, hg] at hfn; cases hfn
        · exact h1
      obtain ⟨f2, hf2, hn2, hb2⟩ := ih ⟨f, hfr, hfn⟩
      exact ⟨f2, by simp [hf2], hn2, by simp [buildRow, hg, hb2]⟩

theorem transform_ok (s : StandardScalerArt) (row : List ℚ)
    (h : row.length = s.nFeaturesIn) :
    s.transform row = .ok (scaleRow s.mean s.scale row) := by
  simp [StandardScalerArt.transform, h]

theorem predict_eq_priceD (p : ModelPredictor) (r : FeatureRecord)
    (hwf : p.scaler.nFeaturesIn = p.feature_names.length)
    (hv : ∀ f ∈ p.feature_names, (List.lookup f r).isSome) :
    p.predict r = .ok (priceD p r) := by
  have hb := buildRow_ok_of_lookups p.feature_names r hv
  have hlen : (buildRowD p.feature_names r).length = p.scaler.nFeaturesIn := by
    simp [buildRowD, hwf]
  simp [ModelPredictor.predict, hb, transform_ok _ _ hlen, priceD]

theorem lookup_eq_of_perm {α β : Type} [BEq α] [LawfulBEq α] {l1 l2 : List (α × β)}
    (h : l1.Perm l2) (nd : (l1.map Prod.fst).Nodup) (a : α) :
    List.lookup a l1 = List.lookup a l2 := by
  induction h with
  | nil => rfl
  | cons x h ih =>
    obtain ⟨k, v⟩ := x
    simp only [List.map_cons, List.nodup_cons] at nd
    simp only [List.lookup]
    cases a == k with
    | true => rfl
    | false => exact ih nd.2
  | swap x y t =>
    obtain ⟨k1, v1⟩ := x
    obtain ⟨k2, v2⟩ := y
    simp only [List.map_cons, List.nodup_cons, List.mem_cons] at nd
    simp only [List.lookup]
    cases h1 : a == k2 <;> cases h2 : a == k1 <;> try rfl
    exfalso
    exact nd.1 (Or.inl ((eq_of_beq h1).symm.trans (eq_of_beq h2)))
  | trans h1 _ ih1 ih2 =>
    have nd2 := ((h1.map Prod.fst).nodup_iff).mp nd
    exact (ih1 nd).trans (ih2 nd2)

theorem buildRows_eq (names : List String) (records : List FeatureRecord)
    (hv : ∀ r ∈ records, ∀ f ∈ names, (List.lookup f r).isSome) :
    buildRows names records = .ok (records.map (buildRowD names)) := by
  induction records with
  | nil => rfl
  | cons r rest ih =>
    have h1 := buildRow_ok_of_lookups names r (hv r (by simp))
    have h2 := ih (fun q hq => hv q (by simp [hq]))
    simp [buildRows, h1, h2]

theorem transformRows_eq (s : StandardScalerArt) (rows : List (List ℚ))
    (h : ∀ row ∈ rows, row.length = s.nFeaturesIn) :
    transformRows s rows = .ok (rows.map (scaleRow s.mean s.scale)) := by
  induction rows with
  | nil => rfl
  | cons row rest ih =>
    simp [transformRows, transform_ok s row (h row (by simp)),
      ih (fun q hq => h q (by simp [hq]))]

theorem predict_batch_eq (p : ModelPredictor) (records : List FeatureRecord)
    (hwf : p.scaler.nFeaturesIn = p.feature_names.length)
    (hv : ∀ r ∈ records, ∀ f ∈ p.feature_names, (List.lookup f r).isSome) :
    p.predict_batch records = .ok (records.map (priceD p)) := by
  have h1 := buildRows_eq p.feature_names records hv
  have h2 := transformRows_eq p.scaler (records.map (buildRowD p.feature_names))
    (by intro row hrow
        obtain ⟨r, _, hr⟩ := List.mem_map.mp hrow
        simp [← hr, buildRowD, hwf])
  simp [ModelPredictor.predict_batch, h1, h2, List.map_map, priceD, Function.comp]

/-! ### Claim theorems -/

/-- C1: on a dict-shaped record, `ModelPredictor.predict` fails with an error
naming an absent schema feature (the `KeyError` of the reordering
comprehension — the failure the spec calls `MissingFeatureError`) whenever at
least one schema feature is missing, and returns no numeric value; on a
record containing every schema feature it returns a single price; and the
result depends only on the record's values at schema names, so extra keys
are ignored. -/
theorem predict_missing_feature_contract (p : ModelPredictor) (r : FeatureRecord)
    (hwf : p.scaler.nFeaturesIn = p.feature_names.length) :
    ((∃ f ∈ p.feature_names, List.lookup f r = none) →
      ∃ f, f ∈ p.feature_names ∧ List.lookup f r = none ∧
        p.predict r = .error (.keyError f)) ∧
    ((∀ f ∈ p.feature_names, (List.lookup f r).isSome) →
      ∃ price, p.predict r = .ok price) ∧
    (∀ r' : FeatureRecord, (∀ f ∈ p.feature_names, List.lookup f r' = List.lookup f r) →
      p.predict r' = p.predict r) := by
  refine ⟨?_, ?_, ?_⟩
  · intro h
    obtain ⟨f, hf, hn, hb⟩ := buildRow_missing _ _ h
    exact ⟨f, hf, hn, by simp [ModelPredictor.predict, hb]⟩
  · intro hv
    exact ⟨_, predict_eq_priceD p r hwf hv⟩
  · intro r' h
    simp [ModelPredictor.predict, buildRow_eq_of_lookup_eq p.feature_names r r' h]

/-- Witness for C1: a complete record (with an extra key) gets a price, and a
record missing feature `"b"` fails with the error naming a missing feature. -/
theorem predict_missing_feature_contract_witness :
    (∃ price, pEx.predict [("b", 5), ("a", 2), ("c", 9)] = .ok price) ∧
    (∃ f, f ∈ pEx.feature_names ∧ List.lookup f [("a", (2 : ℚ))] = none ∧
      pEx.predict [("a", 2)] = .error (.keyError f)) :=
  ⟨(predict_missing_feature_contract pEx [("b", 5), ("a", 2), ("c", 9)] rfl).2.1 (by decide),
   (predict_missing_feature_contract pEx [("a", 2)] rfl).1 (by decide)⟩

/-- C3: on a batch of records each containing every schema feature,
`predict_batch` succeeds, its result has the input's length, and its `i`-th
entry equals what `predict` returns on the `i`-th record. -/
theorem predict_batch_consistent (p : ModelPredictor) (records : List FeatureRecord)
    (hwf : p.scaler.nFeaturesIn = p.feature_names.length)
    (hv : ∀ r ∈ records, ∀ f ∈ p.feature_names, (List.lookup f r).isSome) :
    ∃ prices, p.predict_batch records = .ok prices ∧
      prices.length = records.length ∧
      ∀ i (hi : i < records.length) (hi2 : i < prices.length),
        p.predict records[i] = .ok prices[i] := by
  refine ⟨records.map (priceD p), predict_batch_eq p records hwf hv, by simp, ?_⟩
  intro i hi hi2
  have hm := predict_eq_priceD p records[i] hwf (hv records[i] (List.getElem_mem hi))
  simp [hm]

/-- Witness for C3: the two-record batch for `pEx` succeeds with entries
matching the single-record predictions. -/
theorem predict_batch_consistent_witness :
    ∃ prices, pEx.predict_batch recsEx = .ok prices ∧
      prices.length = recsEx.length ∧
      ∀ i (hi : i < recsEx.length) (hi2 : i < prices.length),
        pEx.predict recsEx[i] = .ok prices[i] :=
  predict_batch_consistent pEx recsEx rfl (by decide)

/-- C7: permuting the key order inside a duplicate-free record leaves
`predict`'s output unchanged, because the record is reordered by the schema
before use. -/
theorem predict_key_order_invariant (p : ModelPredictor) (r1 r2 : FeatureRecord)
    (hperm : r1.Perm r2) (hnd : (r1.map Prod.fst).Nodup) :
    p.predict r2 = p.predict r1 := by
  have h : ∀ f ∈ p.feature_names, List.lookup f r2 = List.lookup f r1 :=
    fun f _ => (lookup_eq_of_perm hperm hnd f).symm
  simp [ModelPredictor.predict, buildRow_eq_of_lookup_eq p.feature_names r1 r2 h]

/-- Witness for C7: swapping the two keys of a concrete record leaves the
prediction unchanged. -/
theorem predict_key_order_invariant_witness :
    pEx.predict [("b", 5), ("a", 2)] = pEx.predict [("a", 2), ("b", 5)] :=
  predict_key_order_invariant pEx [("a", 2), ("b", 5)] [("b", 5), ("a", 2)]
    (by decide) (by decide)

/-- C10 counterexample: the claim that a list input undergoes "no check that
the count … of features match the schema" is false — a one-element list fed
to the two-feature predictor `pEx` fails with the scaler's feature-count
`ValueError` instead of being used. -/
theorem predictList_count_checked_cex :
    pEx.predictList [1] = .error .valueError := by decide

/-- C10 (amended): a list input bypasses all name/presence validation and is
used positionally — it succeeds exactly when its length matches the scaler's
feature count (a mismatch fails with the scaler's generic shape `ValueError`),
and it can never fail with the key-naming error of the missing-feature
contract, which therefore applies only to dict-shaped inputs. -/
theorem predictList_no_name_validation (p : ModelPredictor) (xs : List ℚ) :
    (xs.length = p.scaler.nFeaturesIn →
      p.predictList xs =
        .ok (p.model.predictRow (scaleRow p.scaler.mean p.scaler.scale xs))) ∧
    (xs.length ≠ p.scaler.nFeaturesIn → p.predictList xs = .error .valueError) ∧
    (∀ name, p.predictList xs ≠ .error (.keyError name)) := by
  refine ⟨?_, ?_, ?_⟩
  · intro h
    simp [ModelPredictor.predictList, transform_ok p.scaler xs h]
  · intro h
    simp [ModelPredictor.predictList, StandardScalerArt.transform, h]
  · intro name
    by_cases h : xs.length = p.scaler.nFeaturesIn
    · simp [ModelPredictor.predictList, transform_ok p.scaler xs h]
    · simp [ModelPredictor.predictList, StandardScalerArt.transform, h]

/-- Witness for C10 (amended): a correctly sized list input is scaled and
predicted positionally. -/
theorem predictList_no_name_validation_witness :
    pEx.predictList [1, 2] =
      .ok (pEx.model.predictRow (scaleRow pEx.scaler.mean pEx.scaler.scale [1, 2])) :=
  (predictList_no_name_validation pEx [1, 2]).1 rfl

/-- C2 counterexample: the confidence values are not a static property of the
loaded bundle.  `storeA` and `storeB` load to the same in-memory predictor
(`load_model` does not read metrics), yet `predict_with_confidence` on the
same predictor and record returns different confidences when the metrics
artifact on disk differs at call time, because the source re-reads
`metrics.json` on every call. -/
theorem predict_with_confidence_not_static :
    load_model storeA = load_model storeB ∧
    (load_model storeA).predict_with_confidence storeA [("a", 2)] ≠
      (load_model storeA).predict_with_confidence storeB [("a", 2)] := by
  refine ⟨rfl, ?_⟩
  have hp : (load_model storeA).predict [("a", 2)] = .ok 2 := by
    norm_num [load_model, storeA, ModelPredictor.predict, buildRow, List.lookup,
      StandardScalerArt.transform, StandardScalerArt.nFeaturesIn, scaleRow,
      LinearRegressionArt.predictRow, dot]
  simp only [ModelPredictor.predict_with_confidence, hp]
  simp [storeA, storeB]
  norm_num

/-- C2 (amended): `predict_with_confidence` returns the price together with
the test `r2` and test `rmse` read from the metrics artifact in the model
directory at call time (re-read on each call, not captured at load time);
while the on-disk metrics are unchanged the confidence fields are therefore
the stored test metrics, identical for every record. -/
theorem predict_with_confidence_reads_store (st : Store) (r : FeatureRecord) (price : ℚ)
    (h : (load_model st).predict r = .ok price) :
    (load_model st).predict_with_confidence st r =
      .ok { prediction := price, confidence := st.metrics.test.r2,
            model_rmse := st.metrics.test.rmse } := by
  simp [ModelPredictor.predict_with_confidence, h]

/-- Witness for C2 (amended): on `storeA` the call returns the prediction `2`
with the stored test metrics `r2 = 9/10`, `rmse = 100`. -/
theorem predict_with_confidence_reads_store_witness :
    (load_model storeA).predict_with_confidence storeA [("a", 2)] =
      .ok { prediction := 2, confidence := 9/10, model_rmse := 100 } :=
  predict_with_confidence_reads_store storeA [("a", 2)] 2 (by
    norm_num [load_model, storeA, ModelPredictor.predict, buildRow, List.lookup,
      StandardScalerArt.transform, StandardScalerArt.nFeaturesIn, scaleRow,
      LinearRegressionArt.predictRow, dot])

/-- C4 counterexample: `remove_outliers` with default columns does not
reproduce the claimed reference run over the schema columns.  On `df4`
(feature column with values `0,1,0,1`, price column with values `0,0,0,10`,
threshold `1`) the code also filters the `price` column and drops the last
row, while the claimed schema-columns-only run keeps all four rows. -/
theorem remove_outliers_claim_cex :
    remove_outliers_default df4 2 1 ≠ removeOutliersClaim df4 [0] 1 := by
  have hcode : remove_outliers_default df4 2 1 = [[0, 0], [1, 0], [0, 0]] := by
    norm_num [remove_outliers_default, remove_outliers, List.range_succ, filterCol,
      zKeep, colVals, qmean, sampVar, df4, List.filter]
  have hclaim : removeOutliersClaim df4 [0] 1 = df4 := by
    norm_num [removeOutliersClaim, colVals, qmean, sampVar, df4, List.filter]
  rw [hcode, hclaim]
  simp [df4]

theorem remove_outliers_eq_ref (cols : List Nat) (df : List (List ℚ)) (t : ℚ) :
    remove_outliers df cols t = removeOutliersRef df cols t := by
  induction cols generalizing df with
  | nil => rfl
  | cons j rest ih =>
    show remove_outliers (filterCol df j t) rest t = _
    rw [ih]
    rfl

theorem remove_outliers_sublist (cols : List Nat) (df : List (List ℚ)) (t : ℚ) :
    (remove_outliers df cols t).Sublist df := by
  induction cols generalizing df with
  | nil => exact List.Sublist.refl df
  | cons j rest ih => exact (ih (filterCol df j t)).trans (List.filter_sublist df)

/-- C4 (amended): `remove_outliers` with default columns processes **all**
numeric columns — the schema features in dataframe order followed by the
target `price` column — cumulatively: each stage recomputes mean and sample
standard deviation over the rows surviving the previous stages and keeps a
row only when its z-score magnitude is strictly below the threshold (rows at
exactly the threshold are dropped).  The result is a sublist of the input
rows. -/
theorem remove_outliers_all_columns (df : List (List ℚ)) (ncols : Nat) (t : ℚ) :
    remove_outliers_default df ncols t = removeOutliersRef df (List.range ncols) t ∧
    (remove_outliers_default df ncols t).Sublist df :=
  ⟨remove_outliers_eq_ref (List.range ncols) df t,
   remove_outliers_sublist (List.range ncols) df t⟩

/-- Justification of the squared z-score encoding: for a nonnegative
threshold and positive variance, `(x - mean)^2 < t^2 * var` is exactly
`|x - mean| / sqrt var < t`. -/
theorem zscore_sq_iff_of_pos (x mu v t : ℝ) (hv : 0 < v) (ht : 0 ≤ t) :
    (x - mu) ^ 2 < t ^ 2 * v ↔ |x - mu| / Real.sqrt v < t := by
  rw [div_lt_iff₀ (Real.sqrt_pos.mpr hv)]
  constructor
  · intro h
    have h2 : |x - mu| ^ 2 < (t * Real.sqrt v) ^ 2 := by
      rw [mul_pow, Real.sq_sqrt hv.le, sq_abs]
      exact h
    exact lt_of_pow_lt_pow_left₀ 2 (by positivity) h2
  · intro h
    have h2 : |x - mu| ^ 2 < (t * Real.sqrt v) ^ 2 :=
      pow_lt_pow_left₀ h (abs_nonneg _) (by norm_num)
    rw [mul_pow, Real.sq_sqrt hv.le, sq_abs] at h2
    exact h2

/-- C5: the ScalerParams fitted by `scale_features` (and the scaled training
matrix) depend only on the training split — replacing the test split by any
other matrix leaves them unchanged, for every square-root realisation and
feature count. -/
theorem scaler_params_no_leakage (sqrtFn : ℚ → ℚ) (p : Nat)
    (xtr xte xte' : List (List ℚ)) :
    (scale_features sqrtFn p xtr xte).1 = (scale_features sqrtFn p xtr xte').1 ∧
    (scale_features sqrtFn p xtr xte).2.1 = (scale_features sqrtFn p xtr xte').2.1 :=
  ⟨rfl, rfl⟩

/-- C6: `prepare_train_test_split` passes its integer `random_state` through
to the shuffle, so the resulting partition is a function of the dataset,
the test size and the seed alone — it does not depend on the ambient global
generator state, hence two calls with the same dataset and seed yield
identical train/test partitions. -/
theorem split_deterministic_in_seed (df : List (List ℚ)) (priceCol : Nat)
    (testSize : ℚ) (seed : Nat) (g1 g2 : Nat) :
    prepare_train_test_split df priceCol testSize seed g1 =
      prepare_train_test_split df priceCol testSize seed g2 := rfl

/-- C8 counterexample: fitting one training row with two features (strictly
more features than rows) does not fail — `train` returns coefficients
(the centred system is all-zero, giving the zero coefficient vector and the
mean target as intercept), refuting the claim that such fits are reported as
an `UnderdeterminedFitError`. -/
theorem train_underdetermined_cex :
    ModelTrainer.train [[1, 2]] [5] = .ok ([0, 0], 5) := by
  norm_num [ModelTrainer.train, fitLinearRegression, colMeans, colVals, qmean,
    xtx, xty, dot, gaussSolve, gaussGo, pivotSplit, backSub, elimRow,
    List.range_succ, List.replicate]

/-- C8 (amended): `train` fails only through sklearn's input validation —
an empty training set (or mismatched `X`/`y` lengths) raises `ValueError`;
for every nonempty consistent input, including those with more features than
rows, the fit succeeds and returns coefficients.  No
`UnderdeterminedFitError` exists in the code. -/
theorem train_succeeds_when_nonempty (X : List (List ℚ)) (y : List ℚ) :
    (X = [] → ModelTrainer.train X y = .error .valueError) ∧
    (X ≠ [] → X.length = y.length →
      ModelTrainer.train X y = .ok (fitLinearRegression X y)) := by
  constructor
  · intro h
    subst h
    rfl
  · intro h1 h2
    have hno : ¬(X.length = 0 ∨ X.length ≠ y.length) := by
      push_neg
      exact ⟨fun h0 => h1 (List.length_eq_zero.mp h0), h2⟩
    simp only [ModelTrainer.train, if_neg hno]

/-- Witness for C8 (amended): a nonempty two-row fit succeeds. -/
theorem train_succeeds_when_nonempty_witness :
    ModelTrainer.train [[1], [2]] [3, 4] = .ok (fitLinearRegression [[1], [2]] [3, 4]) :=
  (train_succeeds_when_nonempty [[1], [2]] [3, 4]).2 (by decide) rfl

/-- C9 counterexample: a partial bundle is observable during `save_model`.
Starting from a complete prior bundle, the state after the first write (new
model, old scaler/metrics/features) presents a bundle view equal neither to
the prior bundle nor to the final one, refuting the claim that the prior
bundle is overwritten only after all four artifacts are written. -/
theorem save_model_partial_bundle_cex :
    bundleView (saveTraceEx.getD 1 oldStoreFS) "models" ≠ bundleView oldStoreFS "models" ∧
    bundleView (saveTraceEx.getD 1 oldStoreFS) "models" ≠
      bundleView (saveTraceEx.getD 4 oldStoreFS) "models" := by
  exact ⟨by decide, by decide⟩

/-- C9 (amended): `save_model` writes the four artifacts directly to their
final paths, in source order (model, scaler, metrics, features), with no
temporary names, renames or lock file: the final state holds the complete
new bundle; the state after the first write already holds the new model
while scaler, metrics and features are still the old ones (so a concurrent
reader can observe a partial bundle); and no path outside the four final
artifact paths is ever touched. -/
theorem save_model_write_order (dir : String) (m : LinearRegressionArt)
    (s : StandardScalerArt) (me : Metrics) (fe : List String) (fs0 : ArtifactFS) :
    (save_model dir m s me fe fs0).length = 5 ∧
    bundleView ((save_model dir m s me fe fs0).getD 4 fs0) dir =
      (some (.modelA m), some (.scalerA s), some (.metricsA me), some (.featuresA fe)) ∧
    ((save_model dir m s me fe fs0).getD 1 fs0) (dir, modelFile) = some (.modelA m) ∧
    ((save_model dir m s me fe fs0).getD 1 fs0) (dir, scalerFile) = fs0 (dir, scalerFile) ∧
    ((save_model dir m s me fe fs0).getD 1 fs0) (dir, metricsFile) = fs0 (dir, metricsFile) ∧
    ((save_model dir m s me fe fs0).getD 1 fs0) (dir, featuresFile) = fs0 (dir, featuresFile) ∧
    (∀ q : String × String, q ≠ (dir, modelFile) → q ≠ (dir, scalerFile) →
      q ≠ (dir, metricsFile) → q ≠ (dir, featuresFile) →
      ∀ k : Nat, ((save_model dir m s me fe fs0).getD k fs0) q = fs0 q) := by
  have hms : modelFile ≠ scalerFile := by decide
  have hmm : modelFile ≠ metricsFile := by decide
  have hmf : modelFile ≠ featuresFile := by decide
  have hsm : scalerFile ≠ metricsFile := by decide
  have hsf : scalerFile ≠ featuresFile := by decide
  have hmef : metricsFile ≠ featuresFile := by decide
  refine ⟨rfl, ?_, ?_, ?_, ?_, ?_, ?_⟩
  · simp [save_model, bundleView, fsWrite, Prod.mk.injEq, hms, hmm, hmf, hsm, hsf, hmef,
      Ne.symm hms, Ne.symm hmm, Ne.symm hmf, Ne.symm hsm, Ne.symm hsf, Ne.symm hmef]
  · simp [save_model, fsWrite]
  · simp [save_model, fsWrite, Prod.mk.injEq, Ne.symm hms]
  · simp [save_model, fsWrite, Prod.mk.injEq, Ne.symm hmm]
  · simp [save_model, fsWrite, Prod.mk.injEq, Ne.symm hmf]
  · intro q hq1 hq2 hq3 hq4 k
    rcases k with _ | _ | _ | _ | _ | k
    · rfl
    · simp [save_model, fsWrite, hq1]
    · simp [save_model, fsWrite, hq1, hq2]
    · simp [save_model, fsWrite, hq1, hq2, hq3]
    · simp [save_model, fsWrite, hq1, hq2, hq3, hq4]
    · rfl

/-- Witness for C9 (amended): during the concrete `save_model` call of the
counterexample fixture, a path not among the four artifact paths is
untouched in the intermediate state after the metrics write. -/
theorem save_model_write_order_witness :
    ((save_model "models" newModelArt newScalerArt newMetricsArt ["a"] oldStoreFS).getD 2
      oldStoreFS) ("models", "tmp.pkl") = oldStoreFS ("models", "tmp.pkl") :=
  (save_model_write_order "models" newModelArt newScalerArt newMetricsArt ["a"]
    oldStoreFS).2.2.2.2.2.2 ("models", "tmp.pkl")
    (by decide) (by decide) (by decide) (by decide) 2

end Housing
